import Mathlib

/-!
Verification of the entitlement / quota-enforcement subsystem of
go-ai-coder (`internal/license/check.go`).

The Go code is shallowly embedded: the `License` struct becomes a Lean
structure; methods become functions; the mutex-guarded mutation in
`CanRun` becomes an explicit state-passing function
`License → Int → License × Bool × String`; and `time.Now()` /
`time.Since` become an explicit `now : Int` parameter measured in
nanoseconds (the unit of the Go type `time.Duration`), with
`time.Since(l.LastReset) = now - l.LastReset`.  The `sync.Mutex`
serialises the operations, which the embedding models by making each
operation a whole-state transition; concurrent calls are the two
possible sequential interleavings.
-/

/-- Tier represents the license tier (Go: `type Tier int` with iota). -/
inductive Tier where
  | FreeTier
  | ProTier
  | EnterpriseTier
deriving DecidableEq, Repr

/-- License holds the current license state (Go struct `License`,
minus the `sync.Mutex` field, which is not data). -/
structure License where
  Tier : Tier
  Key : String
  DailyRuns : Int
  MaxRuns : Int
  LastReset : Int
deriving DecidableEq, Repr

def FreeMaxRunsPerDay : Int := 5
def FreeMaxTokensPerRun : Int := 1000
def ProMaxRunsPerDay : Int := 100
def ProMaxTokensPerRun : Int := 10000
def EnterpriseMaxRuns : Int := -1 -- Unlimited
def EnterpriseMaxTokens : Int := -1 -- Unlimited

/-- The Go duration `24 * time.Hour` as a count of nanoseconds. -/
def periodLength : Int := 24 * 60 * 60 * 1000000000

/-- The Go test `strings.HasPrefix s pre` (kernel-computable formulation over
the character list). -/
def startsWith (s pre : String) : Bool :=
  pre.data.isPrefixOf s.data

/-- Function `validateKey` checks if the license key is valid
(stub validation: accepts `PRO_` or `ENT_` prefixed keys of total
length at least 20). -/
def validateKey (key : String) : Bool :=
  if startsWith key "PRO_" && decide (key.length ≥ 20) then
    true
  else if startsWith key "ENT_" && decide (key.length ≥ 20) then
    true
  else
    false

/-- Function `Initialize` sets up the license from the `LICENSE_KEY` environment
value `key`; `now` is the value of `time.Now()` at initialization.
(The `sync.Once` guard and the printed banners are process plumbing and
carry no state.) -/
def Initialize (key : String) (now : Int) : License :=
  if key = "" then
    { Tier := Tier.FreeTier, Key := key, DailyRuns := 0,
      MaxRuns := FreeMaxRunsPerDay, LastReset := now }
  else if validateKey key then
    if startsWith key "ENT_" then
      { Tier := Tier.EnterpriseTier, Key := key, DailyRuns := 0,
        MaxRuns := EnterpriseMaxRuns, LastReset := now }
    else
      { Tier := Tier.ProTier, Key := key, DailyRuns := 0,
        MaxRuns := ProMaxRunsPerDay, LastReset := now }
  else
    { Tier := Tier.FreeTier, Key := key, DailyRuns := 0,
      MaxRuns := FreeMaxRunsPerDay, LastReset := now }

/-- Function `CanRun` checks if the user can perform another run.  Returns the
updated state together with the `(bool, string)` result of the Go method. -/
def CanRun (l : License) (now : Int) : License × Bool × String :=
  -- Reset daily counter if new day
  let l :=
    if now - l.LastReset > periodLength then
      { l with DailyRuns := 0, LastReset := now }
    else l
  -- Enterprise has unlimited runs
  if l.Tier = Tier.EnterpriseTier then
    ({ l with DailyRuns := l.DailyRuns + 1 }, true, "")
  -- Check limits for Free/Pro
  else if l.DailyRuns ≥ l.MaxRuns then
    (l, false,
      "Daily limit reached (" ++ toString l.DailyRuns ++ "/" ++
      toString l.MaxRuns ++
      " runs). Upgrade at https://bakerstreetproject221B.store/pricing")
  else
    ({ l with DailyRuns := l.DailyRuns + 1 }, true, "")

/-- Function `GetMaxTokens` returns max tokens allowed per run.  The Go method
reads only `l.Tier` and assigns nothing, so it is a pure function of
the state. -/
def GetMaxTokens (l : License) : Int :=
  match l.Tier with
  | Tier.EnterpriseTier => EnterpriseMaxTokens
  | Tier.ProTier => ProMaxTokensPerRun
  | Tier.FreeTier => FreeMaxTokensPerRun

/-- Function `GetTierName` returns the human-readable tier name. -/
def GetTierName (l : License) : String :=
  match l.Tier with
  | Tier.EnterpriseTier => "Enterprise"
  | Tier.ProTier => "Pro"
  | Tier.FreeTier => "Free"

/-- Function `GetStatus` returns the current license status string.  The Go
method locks the mutex but assigns no field, so it is a pure read; in
particular it takes no clock reading and performs no period reset. -/
def GetStatus (l : License) : String :=
  if l.Tier = Tier.EnterpriseTier then
    "License: " ++ GetTierName l ++ " | Runs today: " ++
      toString l.DailyRuns ++ " | Unlimited"
  else
    "License: " ++ GetTierName l ++ " | Runs: " ++ toString l.DailyRuns ++
      "/" ++ toString l.MaxRuns ++ " | Tokens/run: " ++
      toString (GetMaxTokens l)

/-- The `(tier, maxRunsPerPeriod, maxTokensPerRun)` triple that
`Initialize` resolves a credential to (named `resolveTier` in the spec),
read off from the initialized state. -/
def resolveTier (key : String) : Tier × Int × Int :=
  ((Initialize key 0).Tier, (Initialize key 0).MaxRuns,
    GetMaxTokens (Initialize key 0))

/-- States reachable from initialization by any sequence of operations.
`CanRun` is the only operation whose Go body assigns fields; `GetStatus`,
`GetMaxTokens` and `GetTierName` assign nothing and hence need no step
constructor. -/
inductive Reachable : License → Prop where
  | init (key : String) (now : Int) : Reachable (Initialize key now)
  | step (l : License) (now : Int) : Reachable l → Reachable (CanRun l now).1

/-- Free-tier state with the daily counter exhausted at 5/5 and a
period that started at time 0. -/
def lC1ex : License :=
  { Tier := Tier.FreeTier, Key := "", DailyRuns := 5, MaxRuns := 5,
    LastReset := 0 }

/-- The same exhausted Free-tier state, used to probe the exact-24h
reset boundary. -/
def lC2ex : License :=
  { Tier := Tier.FreeTier, Key := "", DailyRuns := 5, MaxRuns := 5,
    LastReset := 0 }

/-- The chain of states of a fresh Free-tier license under repeated
`CanRun` calls, all at time 0. -/
def freeState : Nat → License
  | 0 => Initialize "" 0
  | n + 1 => (CanRun (freeState n) 0).1

/-- Free-tier state with exactly one remaining slot (4 of 5 used). -/
def lC8ex : License :=
  { Tier := Tier.FreeTier, Key := "", DailyRuns := 4, MaxRuns := 5,
    LastReset := 0 }

/-- A freshly initialized Enterprise-tier state. -/
def entState : License := Initialize "ENT_1234567890123456" 0

/-- A freshly initialized Free-tier state. -/
def lC6ex : License := Initialize "" 0

/-- The same Free-tier state after three (notional) runs: same tier,
different counter. -/
def lC6ex2 : License := { lC6ex with DailyRuns := 3 }

/-- Branch lemma: when no reset is due, `CanRun` is the plain
tier/limit check on the unchanged state. -/
theorem canRun_of_not_reset (l : License) (now : Int)
    (h : ¬ (now - l.LastReset > periodLength)) :
    CanRun l now =
      if l.Tier = Tier.EnterpriseTier then
        ({ l with DailyRuns := l.DailyRuns + 1 }, true, "")
      else if l.DailyRuns ≥ l.MaxRuns then
        (l, false,
          "Daily limit reached (" ++ toString l.DailyRuns ++ "/" ++
          toString l.MaxRuns ++
          " runs). Upgrade at https://bakerstreetproject221B.store/pricing")
      else ({ l with DailyRuns := l.DailyRuns + 1 }, true, "") := by
  simp only [CanRun, if_neg h]

/-- A reset never retriggers at the very instant it happened. -/
theorem not_reset_self (now : Int) : ¬ (now - now > periodLength) := by
  rw [sub_self]
  decide

/-- Branch lemma: when a reset is due, `CanRun` behaves exactly as on
the state with the counter zeroed and the period start moved to `now`. -/
theorem canRun_of_reset (l : License) (now : Int)
    (h : now - l.LastReset > periodLength) :
    CanRun l now = CanRun { l with DailyRuns := 0, LastReset := now } now := by
  rw [canRun_of_not_reset { l with DailyRuns := 0, LastReset := now } now
    (not_reset_self now)]
  simp only [CanRun, if_pos h]

/-- Branch lemma: Enterprise tier, no reset due — allowed, counter
incremented. -/
theorem canRun_enterprise (l : License) (now : Int)
    (h : ¬ (now - l.LastReset > periodLength))
    (ht : l.Tier = Tier.EnterpriseTier) :
    CanRun l now = ({ l with DailyRuns := l.DailyRuns + 1 }, true, "") := by
  rw [canRun_of_not_reset l now h, if_pos ht]

/-- Branch lemma: non-Enterprise tier at or over the limit, no reset
due — denied, state unchanged, message reporting usage, limit and the
upgrade pointer. -/
theorem canRun_denied (l : License) (now : Int)
    (h : ¬ (now - l.LastReset > periodLength))
    (ht : ¬ l.Tier = Tier.EnterpriseTier) (hge : l.DailyRuns ≥ l.MaxRuns) :
    CanRun l now =
      (l, false,
        "Daily limit reached (" ++ toString l.DailyRuns ++ "/" ++
        toString l.MaxRuns ++
        " runs). Upgrade at https://bakerstreetproject221B.store/pricing") := by
  rw [canRun_of_not_reset l now h, if_neg ht, if_pos hge]

/-- Branch lemma: non-Enterprise tier under the limit, no reset due —
allowed, counter incremented. -/
theorem canRun_allowed (l : License) (now : Int)
    (h : ¬ (now - l.LastReset > periodLength))
    (ht : ¬ l.Tier = Tier.EnterpriseTier) (hlt : l.DailyRuns < l.MaxRuns) :
    CanRun l now = ({ l with DailyRuns := l.DailyRuns + 1 }, true, "") := by
  rw [canRun_of_not_reset l now h, if_neg ht, if_neg (not_le.mpr hlt)]

/-- Frame of `CanRun` on the state: `Tier`, `Key` and `MaxRuns` are
untouched, and `LastReset` moves to `now` exactly when a reset was
due. -/
theorem canRun_frame (l : License) (now : Int) :
    (CanRun l now).1.Tier = l.Tier ∧ (CanRun l now).1.Key = l.Key ∧
    (CanRun l now).1.MaxRuns = l.MaxRuns ∧
    (CanRun l now).1.LastReset =
      (if now - l.LastReset > periodLength then now else l.LastReset) := by
  by_cases hr : now - l.LastReset > periodLength
  · rw [canRun_of_reset l now hr, if_pos hr]
    by_cases ht : ({ l with DailyRuns := 0, LastReset := now } : License).Tier
        = Tier.EnterpriseTier
    · rw [canRun_enterprise _ now (not_reset_self now) ht]
      exact ⟨rfl, rfl, rfl, rfl⟩
    · by_cases hge : ({ l with DailyRuns := 0, LastReset := now } :
          License).DailyRuns ≥ l.MaxRuns
      · rw [canRun_denied _ now (not_reset_self now) ht hge]
        exact ⟨rfl, rfl, rfl, rfl⟩
      · rw [canRun_allowed _ now (not_reset_self now) ht (not_le.mp hge)]
        exact ⟨rfl, rfl, rfl, rfl⟩
  · rw [if_neg hr]
    by_cases ht : l.Tier = Tier.EnterpriseTier
    · rw [canRun_enterprise l now hr ht]
      exact ⟨rfl, rfl, rfl, rfl⟩
    · by_cases hge : l.DailyRuns ≥ l.MaxRuns
      · rw [canRun_denied l now hr ht hge]
        exact ⟨rfl, rfl, rfl, rfl⟩
      · rw [canRun_allowed l now hr ht (not_le.mp hge)]
        exact ⟨rfl, rfl, rfl, rfl⟩

/-- C1 counterexample: in the exhausted Free-tier state whose period
started at time 0, observed at time `2 * periodLength` (a reset is due),
`GetStatus` still reports `Runs: 5/5` — not the post-reset counter 0 —
while the very next `CanRun` does reset (it allows the run and leaves the
counter at 0 + 1 = 1).  Status and consumption do not share the reset
logic. -/
theorem C1_counterexample :
    GetStatus lC1ex = "License: Free | Runs: 5/5 | Tokens/run: 1000" ∧
    GetStatus lC1ex ≠ GetStatus { lC1ex with DailyRuns := 0 } ∧
    2 * periodLength - lC1ex.LastReset > periodLength ∧
    (CanRun lC1ex (2 * periodLength)).2.1 = true ∧
    (CanRun lC1ex (2 * periodLength)).1.DailyRuns = 1 :=
  ⟨by decide, by decide, by decide, by decide, by decide⟩

/-- C1 (amended): `GetStatus` applies no reset logic at all — its output
is independent of `LastReset` (and it reads no clock), so when a reset is
due it reports the stored pre-reset counter; only `CanRun` applies the
reset, and a `CanRun` call with a reset due (and a positive run limit on
a non-Enterprise tier) observes the counter as 0, allows the run, and
leaves the counter at 1. -/
theorem C1_statusHasNoResetLogic (l : License) (t now : Int) :
    GetStatus { l with LastReset := t } = GetStatus l ∧
    (now - l.LastReset > periodLength → l.Tier ≠ Tier.EnterpriseTier →
      0 < l.MaxRuns →
      (CanRun l now).2.1 = true ∧ (CanRun l now).1.DailyRuns = 1) := by
  constructor
  · cases l; rfl
  · intro h ht hm
    have ht' : ¬ ({ l with DailyRuns := 0, LastReset := now } : License).Tier
        = Tier.EnterpriseTier := ht
    have hlt : ({ l with DailyRuns := 0, LastReset := now } :
        License).DailyRuns < l.MaxRuns := hm
    rw [canRun_of_reset l now h,
      canRun_allowed _ now (not_reset_self now) ht' hlt]
    exact ⟨rfl, zero_add 1⟩

/-- Witness for the amended C1 at the concrete exhausted state. -/
theorem C1_statusHasNoResetLogic_witness :
    (2 * periodLength - lC1ex.LastReset > periodLength ∧
      lC1ex.Tier ≠ Tier.EnterpriseTier ∧ 0 < lC1ex.MaxRuns) ∧
    GetStatus { lC1ex with LastReset := 7 } = GetStatus lC1ex ∧
    (CanRun lC1ex (2 * periodLength)).2.1 = true ∧
    (CanRun lC1ex (2 * periodLength)).1.DailyRuns = 1 := by
  refine ⟨⟨by decide, by decide, by decide⟩, ?_, ?_⟩
  · exact (C1_statusHasNoResetLogic lC1ex 7 (2 * periodLength)).1
  · exact (C1_statusHasNoResetLogic lC1ex 7 (2 * periodLength)).2
      (by decide) (by decide) (by decide)

/-- C2 counterexample: with the period started at time 0 and the state
exhausted at 5/5, a `CanRun` call at exactly `periodLength` (elapsed time
exactly 24 hours) performs no reset — the state is unchanged and the call
is denied — whereas the claim requires a reset (and hence an allowed
call) when the elapsed time *meets or* exceeds 24 hours. -/
theorem C2_counterexample :
    periodLength - lC2ex.LastReset = periodLength ∧
    (CanRun lC2ex periodLength).1 = lC2ex ∧
    (CanRun lC2ex periodLength).2.1 = false :=
  ⟨by decide, by decide, by decide⟩

/-- C2 (amended): the reset fires iff the elapsed time since the period
start *strictly* exceeds 24 hours.  When `now - LastReset > periodLength`,
`CanRun` behaves exactly as if called on the state with the counter reset
to 0 and the period start advanced to `now` (i.e. the reset happens before
any limit check), and the resulting period start is `now`; when
`now - LastReset ≤ periodLength` — including exactly 24 hours — no reset
occurs and the period start is unchanged. -/
theorem C2_resetStrictlyAfter24h (l : License) (now : Int) :
    (now - l.LastReset > periodLength →
      CanRun l now = CanRun { l with DailyRuns := 0, LastReset := now } now ∧
      (CanRun l now).1.LastReset = now) ∧
    (now - l.LastReset ≤ periodLength →
      (CanRun l now).1.LastReset = l.LastReset) := by
  constructor
  · intro h
    refine ⟨canRun_of_reset l now h, ?_⟩
    rw [(canRun_frame l now).2.2.2, if_pos h]
  · intro h
    rw [(canRun_frame l now).2.2.2, if_neg (not_lt.mpr h)]

/-- Witness for the amended C2: the reset fires at `2 * periodLength`
elapsed, and does not fire at exactly `periodLength` elapsed. -/
theorem C2_resetStrictlyAfter24h_witness :
    (2 * periodLength - lC2ex.LastReset > periodLength ∧
      CanRun lC2ex (2 * periodLength) =
        CanRun { lC2ex with DailyRuns := 0, LastReset := 2 * periodLength }
          (2 * periodLength) ∧
      (CanRun lC2ex (2 * periodLength)).1.LastReset = 2 * periodLength) ∧
    (periodLength - lC2ex.LastReset ≤ periodLength ∧
      (CanRun lC2ex periodLength).1.LastReset = lC2ex.LastReset) := by
  refine ⟨⟨by decide, ?_⟩, ⟨by decide, ?_⟩⟩
  · exact (C2_resetStrictlyAfter24h lC2ex (2 * periodLength)).1 (by decide)
  · exact (C2_resetStrictlyAfter24h lC2ex periodLength).2 (by decide)

/-- C3: within one period (no reset due), a Free-tier state with the
Free run limit allows a `CanRun` call iff the counter is under 5, in
which case the counter is the only change and goes up by 1; at or past
5 the call is denied, the state is completely unchanged, and the
message states the current usage, the limit, and the upgrade pointer.
Iterated from a fresh state this makes calls 1–5 allowed and every call
from the 6th on denied. -/
theorem C3_freeTierExhaustion (l : License) (now : Int)
    (hTier : l.Tier = Tier.FreeTier) (hMax : l.MaxRuns = FreeMaxRunsPerDay)
    (hPeriod : now - l.LastReset ≤ periodLength) :
    (l.DailyRuns < 5 →
      (CanRun l now).2.1 = true ∧
      (CanRun l now).1 = { l with DailyRuns := l.DailyRuns + 1 }) ∧
    (l.DailyRuns ≥ 5 →
      (CanRun l now).2.1 = false ∧ (CanRun l now).1 = l ∧
      (CanRun l now).2.2 =
        "Daily limit reached (" ++ toString l.DailyRuns ++ "/" ++
        toString l.MaxRuns ++
        " runs). Upgrade at https://bakerstreetproject221B.store/pricing") := by
  have hnr : ¬ (now - l.LastReset > periodLength) := not_lt.mpr hPeriod
  have ht : ¬ l.Tier = Tier.EnterpriseTier := by rw [hTier]; decide
  constructor
  · intro hd
    have hlt : l.DailyRuns < l.MaxRuns := by rw [hMax]; exact hd
    rw [canRun_allowed l now hnr ht hlt]
    exact ⟨rfl, rfl⟩
  · intro hd
    have hge : l.DailyRuns ≥ l.MaxRuns := by rw [hMax]; exact hd
    rw [canRun_denied l now hnr ht hge]
    exact ⟨rfl, rfl, rfl⟩

/-- Witness for C3: the concrete six-call chain from a freshly
initialized Free-tier license — five allowed calls, then a denial that
leaves the counter at 5 and reports `5/5` with the upgrade pointer. -/
theorem C3_freeTierExhaustion_witness :
    ((freeState 5).Tier = Tier.FreeTier ∧
      (freeState 5).MaxRuns = FreeMaxRunsPerDay ∧
      (0 : Int) - (freeState 5).LastReset ≤ periodLength ∧
      (freeState 5).DailyRuns ≥ 5) ∧
    (CanRun (freeState 0) 0).2.1 = true ∧
    (CanRun (freeState 1) 0).2.1 = true ∧
    (CanRun (freeState 2) 0).2.1 = true ∧
    (CanRun (freeState 3) 0).2.1 = true ∧
    (CanRun (freeState 4) 0).2.1 = true ∧
    (freeState 5).DailyRuns = 5 ∧
    (CanRun (freeState 5) 0).2.1 = false ∧
    (CanRun (freeState 5) 0).1 = freeState 5 ∧
    (CanRun (freeState 5) 0).2.2 =
      "Daily limit reached (5/5 runs). Upgrade at https://bakerstreetproject221B.store/pricing" := by
  refine ⟨⟨by decide, by decide, by decide, by decide⟩, by decide, by decide,
    by decide, by decide, by decide, by decide, ?_, ?_, by decide⟩
  · exact ((C3_freeTierExhaustion (freeState 5) 0 (by decide) (by decide)
      (by decide)).2 (by decide)).1
  · exact ((C3_freeTierExhaustion (freeState 5) 0 (by decide) (by decide)
      (by decide)).2 (by decide)).2.1

/-- C4: on an Enterprise-tier state every `CanRun` call is allowed —
regardless of the counter value, so in particular 1,000 consecutive
calls are all allowed — and the counter still increments by 1 on each
call (from 0 if a reset was due). -/
theorem C4_enterpriseUnbounded (l : License) (now : Int)
    (hTier : l.Tier = Tier.EnterpriseTier) :
    (CanRun l now).2.1 = true ∧
    (CanRun l now).1.DailyRuns =
      (if now - l.LastReset > periodLength then 0 else l.DailyRuns) + 1 := by
  by_cases hr : now - l.LastReset > periodLength
  · rw [canRun_of_reset l now hr,
      canRun_enterprise _ now (not_reset_self now)
        (show ({ l with DailyRuns := 0, LastReset := now } : License).Tier
          = Tier.EnterpriseTier from hTier),
      if_pos hr]
    exact ⟨rfl, rfl⟩
  · rw [canRun_enterprise l now hr hTier, if_neg hr]
    exact ⟨rfl, rfl⟩

/-- Witness for C4 at a freshly initialized Enterprise license. -/
theorem C4_enterpriseUnbounded_witness :
    entState.Tier = Tier.EnterpriseTier ∧
    (CanRun entState 0).2.1 = true ∧
    (CanRun entState 0).1.DailyRuns =
      (if (0 : Int) - entState.LastReset > periodLength then 0
        else entState.DailyRuns) + 1 :=
  ⟨by decide, C4_enterpriseUnbounded entState 0 (by decide)⟩

/-- C5: a credential is valid iff it starts with `PRO_` or `ENT_` and
has total length at least 20; and the concrete resolutions — empty →
Free, `PRO_1234567890123456` (exactly 20 characters) → valid Pro,
`PRO_123` → invalid → Free, `ENT_1234567890123456` → valid Enterprise,
`FREE_1234567890123456` → unrecognized marker → invalid → Free. -/
theorem C5_tierResolution :
    (∀ key : String, validateKey key =
      ((startsWith key "PRO_" || startsWith key "ENT_") &&
        decide (key.length ≥ 20))) ∧
    validateKey "PRO_1234567890123456" = true ∧
    (Initialize "PRO_1234567890123456" 0).Tier = Tier.ProTier ∧
    validateKey "PRO_123" = false ∧
    (Initialize "PRO_123" 0).Tier = Tier.FreeTier ∧
    validateKey "ENT_1234567890123456" = true ∧
    (Initialize "ENT_1234567890123456" 0).Tier = Tier.EnterpriseTier ∧
    validateKey "FREE_1234567890123456" = false ∧
    (Initialize "FREE_1234567890123456" 0).Tier = Tier.FreeTier ∧
    (Initialize "" 0).Tier = Tier.FreeTier ∧
    "PRO_1234567890123456".length = 20 := by
  refine ⟨?_, by decide, by decide, by decide, by decide, by decide,
    by decide, by decide, by decide, by decide, by decide⟩
  intro key
  unfold validateKey
  cases h1 : startsWith key "PRO_" <;> cases h2 : startsWith key "ENT_" <;>
    cases h3 : decide (key.length ≥ 20) <;> simp [h1, h2, h3]

/-- C6: `GetMaxTokens` is a pure read (it is a function of the state
that performs no mutation and no run consumption — its Go body assigns
nothing) whose value depends only on the tier: 1,000 for Free, 10,000
for Pro, and the unbounded marker `EnterpriseMaxTokens = -1` for
Enterprise. -/
theorem C6_maxTokensPureRead (l l' : License) :
    (l.Tier = l'.Tier → GetMaxTokens l = GetMaxTokens l') ∧
    (l.Tier = Tier.FreeTier → GetMaxTokens l = 1000) ∧
    (l.Tier = Tier.ProTier → GetMaxTokens l = 10000) ∧
    (l.Tier = Tier.EnterpriseTier →
      GetMaxTokens l = EnterpriseMaxTokens ∧ EnterpriseMaxTokens = -1) := by
  refine ⟨?_, ?_, ?_, ?_⟩ <;> intro h <;>
    simp [GetMaxTokens, h, FreeMaxTokensPerRun, ProMaxTokensPerRun,
      EnterpriseMaxTokens]

/-- Witness for C6: two Free-tier states differing in their counters
get the same 1,000-token budget. -/
theorem C6_maxTokensPureRead_witness :
    (lC6ex.Tier = lC6ex2.Tier ∧ lC6ex.Tier = Tier.FreeTier) ∧
    GetMaxTokens lC6ex = GetMaxTokens lC6ex2 ∧ GetMaxTokens lC6ex = 1000 := by
  refine ⟨⟨by decide, by decide⟩, ?_, ?_⟩
  · exact (C6_maxTokensPureRead lC6ex lC6ex2).1 (by decide)
  · exact (C6_maxTokensPureRead lC6ex lC6ex2).2.1 (by decide)

/-- C7: every reachable state — any state produced from `Initialize`
by any sequence of `CanRun` calls (the only operation that assigns
fields) — has a non-negative run counter. -/
theorem C7_runsNonNegative (l : License) (h : Reachable l) :
    0 ≤ l.DailyRuns := by
  induction h with
  | init key now =>
    unfold Initialize
    split
    · exact le_refl 0
    · split
      · split
        · exact le_refl 0
        · exact le_refl 0
      · exact le_refl 0
  | step l now hR ih =>
    by_cases hr : now - l.LastReset > periodLength
    · rw [canRun_of_reset l now hr]
      by_cases ht : ({ l with DailyRuns := 0, LastReset := now } :
          License).Tier = Tier.EnterpriseTier
      · rw [canRun_enterprise _ now (not_reset_self now) ht]
        exact (by decide : (0 : Int) ≤ 0 + 1)
      · by_cases hge : ({ l with DailyRuns := 0, LastReset := now } :
            License).DailyRuns ≥ l.MaxRuns
        · rw [canRun_denied _ now (not_reset_self now) ht hge]
        · rw [canRun_allowed _ now (not_reset_self now) ht (not_le.mp hge)]
          exact (by decide : (0 : Int) ≤ 0 + 1)
    · by_cases ht : l.Tier = Tier.EnterpriseTier
      · rw [canRun_enterprise l now hr ht]
        exact add_nonneg ih zero_le_one
      · by_cases hge : l.DailyRuns ≥ l.MaxRuns
        · rw [canRun_denied l now hr ht hge]
          exact ih
        · rw [canRun_allowed l now hr ht (not_le.mp hge)]
          exact add_nonneg ih zero_le_one

/-- Witness for C7 on the concrete reachable state obtained by one
`CanRun` call after a Free-tier initialization. -/
theorem C7_runsNonNegative_witness :
    0 ≤ ((CanRun (Initialize "" 0) 5).1).DailyRuns :=
  C7_runsNonNegative _ (Reachable.step (Initialize "" 0) 5
    (Reachable.init "" 0))

/-- C8: the mutex makes each `CanRun` call a single atomic transition,
so two concurrent calls execute as the two sequential compositions; in
a non-Enterprise state with exactly one remaining slot, within the
period for both call instants, the first serialized call is allowed and
the second is denied — in either arrival order (`now1`/`now2` are
arbitrary), hence exactly one allowed, never two, never zero. -/
theorem C8_noOverAdmission (l : License) (now1 now2 : Int)
    (hTier : l.Tier ≠ Tier.EnterpriseTier)
    (hSlot : l.DailyRuns + 1 = l.MaxRuns)
    (h1 : now1 - l.LastReset ≤ periodLength)
    (h2 : now2 - l.LastReset ≤ periodLength) :
    (CanRun l now1).2.1 = true ∧
    (CanRun (CanRun l now1).1 now2).2.1 = false := by
  have hnr1 : ¬ (now1 - l.LastReset > periodLength) := not_lt.mpr h1
  have hlt : l.DailyRuns < l.MaxRuns := by omega
  rw [canRun_allowed l now1 hnr1 hTier hlt]
  refine ⟨rfl, ?_⟩
  have hnr2 : ¬ (now2 - ({ l with DailyRuns := l.DailyRuns + 1 } :
      License).LastReset > periodLength) := not_lt.mpr h2
  have hge : ({ l with DailyRuns := l.DailyRuns + 1 } : License).DailyRuns ≥
      ({ l with DailyRuns := l.DailyRuns + 1 } : License).MaxRuns :=
    le_of_eq hSlot.symm
  rw [canRun_denied _ now2 hnr2 hTier hge]

/-- Witness for C8 at the concrete Free-tier 4-of-5 state, both calls
at time 0. -/
theorem C8_noOverAdmission_witness :
    (lC8ex.Tier ≠ Tier.EnterpriseTier ∧ lC8ex.DailyRuns + 1 = lC8ex.MaxRuns ∧
      (0 : Int) - lC8ex.LastReset ≤ periodLength) ∧
    (CanRun lC8ex 0).2.1 = true ∧
    (CanRun (CanRun lC8ex 0).1 0).2.1 = false := by
  refine ⟨⟨by decide, by decide, by decide⟩, ?_⟩
  exact C8_noOverAdmission lC8ex 0 0 (by decide) (by decide) (by decide)
    (by decide)

/-- C9: tier resolution is deterministic and depends only on the
credential: initializing at any two instants yields the same
`(tier, maxRunsPerPeriod, maxTokensPerRun)` triple, namely
`resolveTier key` — a pure function of the credential string alone. -/
theorem C9_tierResolutionDeterministic (key : String) (now1 now2 : Int) :
    ((Initialize key now1).Tier, (Initialize key now1).MaxRuns,
      GetMaxTokens (Initialize key now1)) = resolveTier key ∧
    ((Initialize key now2).Tier, (Initialize key now2).MaxRuns,
      GetMaxTokens (Initialize key now2)) = resolveTier key := by
  have h : ∀ now : Int,
      ((Initialize key now).Tier, (Initialize key now).MaxRuns,
        GetMaxTokens (Initialize key now)) = resolveTier key := by
    intro now
    by_cases k1 : key = ""
    · simp [resolveTier, Initialize, k1, GetMaxTokens]
    · by_cases k2 : validateKey key = true
      · by_cases k3 : startsWith key "ENT_" = true
        · simp [resolveTier, Initialize, k1, k2, k3, GetMaxTokens]
        · simp [resolveTier, Initialize, k1, k2, k3, GetMaxTokens]
      · simp [resolveTier, Initialize, k1, k2, GetMaxTokens]
  exact ⟨h now1, h now2⟩

/-- C10: `CanRun` leaves `Tier`, `Key` and `MaxRuns` untouched in every
state at every instant (its only assignments are to `DailyRuns` and
`LastReset`); `GetStatus`, `GetMaxTokens` and `GetTierName` assign no
field at all, which the embedding reflects by their being plain
functions of the state. -/
theorem C10_canRunFrame (l : License) (now : Int) :
    (CanRun l now).1.Tier = l.Tier ∧ (CanRun l now).1.Key = l.Key ∧
    (CanRun l now).1.MaxRuns = l.MaxRuns :=
  ⟨(canRun_frame l now).1, (canRun_frame l now).2.1,
    (canRun_frame l now).2.2.1⟩
